import Mathlib

/-!
Verification of the Holo2 click-localization inference pipeline
(src/backend/model.py and src/backend/app.py) against its specification.

The pipeline's externals (the tokenizer's decode, the generation capability,
PIL's image decoding) are modelled as explicit function parameters; machine
arithmetic that Python performs on floats (`round(h / f)`, `int(w * ratio)`,
`math.sqrt`) is modelled by the exact rational/integer value it approximates,
noted at each definition.
-/

namespace Holo2

/-- Sentinel token id that opens the reasoning segment (model.py line 57). -/
def REASONING_START : Nat := 151667

/-- Sentinel token id that closes the reasoning segment (model.py line 62). -/
def REASONING_END : Nat := 151668

/-- Python `s.strip("\n")`: remove leading and trailing newline characters. -/
def pyStripNewlines (s : String) : String :=
  String.mk (((s.data.dropWhile (fun c => c = '\n')).reverse.dropWhile
    (fun c => c = '\n')).reverse)

/-- Python `list.index(t)` wrapped in try/except: the index of the first
occurrence of `t`, or `none` when `t` does not occur (raising `ValueError`
in the source, model.py lines 56-64). -/
def pyIndex : List Nat → Nat → Option Nat
  | [], _ => none
  | a :: l, t => if a = t then some 0 else (pyIndex l t).map (· + 1)

/-- `parse_reasoning` from src/backend/model.py lines 52-79, over the token id
list `all_ids = generated_ids[0].tolist()`. The tokenizer
(`processor.decode(·, skip_special_tokens=True)`) is an external collaborator
passed in as `decode`. Python slices `all_ids[a:b]` on nonnegative bounds are
`(drop a).take (b - a)` (empty when `b ≤ a`, as in Python). Returns the pair
`(content, thinking_content)`. -/
def parse_reasoning (decode : List Nat → String) (all_ids : List Nat) :
    String × String :=
  let think_start_index : Int :=
    match pyIndex all_ids REASONING_START with
    | some i => (i : Int)
    | none => -1
  let think_end_index : Nat :=
    match pyIndex all_ids REASONING_END with
    | some i => i
    | none => all_ids.length
  if think_start_index ≠ -1 then
    let s := think_start_index.toNat
    let thinking_content :=
      pyStripNewlines (decode ((all_ids.drop (s + 1)).take (think_end_index - (s + 1))))
    let content := pyStripNewlines (decode (all_ids.drop (think_end_index + 1)))
    (content, thinking_content)
  else
    (pyStripNewlines (decode all_ids), "")

/-- The token split as the specification words it (spec §4.4): the end boundary
is the first occurrence of `REASONING_END` that comes *after* the first
`REASONING_START`; reasoning is strictly between the boundaries, the answer is
strictly after the end boundary (end-of-sequence when no end sentinel follows
the start). Stated for comparison with `parse_reasoning`, which is the code's
behaviour. -/
def specParseTokens (decode : List Nat → String) (ids : List Nat) :
    String × String :=
  match pyIndex ids REASONING_START with
  | none => (pyStripNewlines (decode ids), "")
  | some s =>
    let rest := ids.drop (s + 1)
    match pyIndex rest REASONING_END with
    | none => (pyStripNewlines (decode []), pyStripNewlines (decode rest))
    | some j =>
      (pyStripNewlines (decode (rest.drop (j + 1))),
       pyStripNewlines (decode (rest.take j)))

/-- A concrete stand-in tokenizer used only to instantiate theorems: each
non-sentinel token prints as its decimal numeral (sentinels are special tokens,
suppressed as `skip_special_tokens=True` does). -/
def decodeNum (ids : List Nat) : String :=
  String.join ((ids.filter
    (fun t => ¬ (t = REASONING_START ∨ t = REASONING_END))).map (fun t => toString t))

/-! ### JSON parsing and pydantic validation (external library, model.py line 150)

`ClickCoordinates.model_validate_json` is a pydantic v2 call; pydantic parses
the JSON document and validates it in its default (lax) mode. The library is
modelled here from its documented semantics: integer literals parse as ints,
literals with a fraction or exponent part parse as floats (modelled exactly as
`mantissa * 10 ^ exp`), and lax mode coerces integral floats and decimal
numeral strings to `int` fields. -/

/-- The open- and close-brace characters, written via their code points. -/
def lbrace : Char := Char.ofNat 123

def rbrace : Char := Char.ofNat 125

/-- A JSON value as pydantic's JSON parser produces it. -/
inductive JValue where
  | jnull
  | jbool (b : Bool)
  | jint (n : Int)
  | jfloat (mantissa : Int) (exp : Int)
  | jstr (s : String)
  | jarr (xs : List JValue)
  | jobj (fields : List (String × JValue))

/-- JSON insignificant whitespace. -/
def isJsonWs (c : Char) : Bool := c = ' ' ∨ c = '\n' ∨ c = '\t' ∨ c = '\r'

def skipWs (cs : List Char) : List Char := cs.dropWhile isJsonWs

def takeDigits (cs : List Char) : List Char × List Char :=
  (cs.takeWhile Char.isDigit, cs.dropWhile Char.isDigit)

def digitsToNat (ds : List Char) : Nat :=
  ds.foldl (fun acc c => acc * 10 + (c.toNat - 48)) 0

def hexVal (c : Char) : Option Nat :=
  if '0' ≤ c ∧ c ≤ '9' then some (c.toNat - 48)
  else if 'a' ≤ c ∧ c ≤ 'f' then some (c.toNat - 87)
  else if 'A' ≤ c ∧ c ≤ 'F' then some (c.toNat - 55)
  else none

/-- Match a literal keyword (`true` / `false` / `null`) prefix. -/
def stripKeyword : List Char → List Char → Option (List Char)
  | [], cs => some cs
  | _ :: _, [] => none
  | p :: ps, c :: r => if c = p then stripKeyword ps r else none

/-- Scan a JSON string body (after the opening quote) up to the closing quote,
resolving the standard escapes. Fuel-recursive; callers pass the remaining
input length, which always suffices. -/
def parseStringBody : Nat → List Char → Option (String × List Char)
  | 0, _ => none
  | _, [] => none
  | fuel + 1, c :: cs =>
    if c = '"' then some ("", cs)
    else if c = '\\' then
      match cs with
      | [] => none
      | e :: cs' =>
        let esc : Option (Char × List Char) :=
          if e = '"' then some ('"', cs')
          else if e = '\\' then some ('\\', cs')
          else if e = '/' then some ('/', cs')
          else if e = 'n' then some ('\n', cs')
          else if e = 't' then some ('\t', cs')
          else if e = 'r' then some ('\r', cs')
          else if e = 'b' then some (Char.ofNat 8, cs')
          else if e = 'f' then some (Char.ofNat 12, cs')
          else if e = 'u' then
            match cs' with
            | h1 :: h2 :: h3 :: h4 :: rest =>
              match hexVal h1, hexVal h2, hexVal h3, hexVal h4 with
              | some a, some b, some c2, some d =>
                some (Char.ofNat (((a * 16 + b) * 16 + c2) * 16 + d), rest)
              | _, _, _, _ => none
            | _ => none
          else none
        match esc with
        | none => none
        | some (ch, rest) =>
          (parseStringBody fuel rest).map (fun p => (String.mk (ch :: p.1.data), p.2))
    else (parseStringBody fuel cs).map (fun p => (String.mk (c :: p.1.data), p.2))

/-- Parse the optional exponent part of a number. The value scanned so far is
`mant * 10 ^ e0`; `isFloat` records whether a fraction part was seen (any
exponent also makes the literal a float, as in Python's JSON parsing). -/
def parseExpPart (mant : Int) (e0 : Int) (isFloat : Bool) (cs : List Char) :
    Option (JValue × List Char) :=
  match cs with
  | c :: r =>
    if c = 'e' ∨ c = 'E' then
      let signRest : Bool × List Char :=
        match r with
        | d :: r' => if d = '-' then (true, r') else if d = '+' then (false, r') else (false, r)
        | [] => (false, r)
      let eDs := takeDigits signRest.2
      if eDs.1.isEmpty then none
      else
        let e : Int := (if signRest.1 then -1 else 1) * (digitsToNat eDs.1 : Int)
        some (.jfloat mant (e0 + e), eDs.2)
    else if isFloat then some (.jfloat mant e0, cs) else some (.jint mant, cs)
  | [] => if isFloat then some (.jfloat mant e0, cs) else some (.jint mant, cs)

/-- Parse a JSON number literal (RFC 8259 grammar: optional minus, integer part
without superfluous leading zeros, optional fraction, optional exponent). -/
def parseNumber (cs : List Char) : Option (JValue × List Char) :=
  let signed : Bool × List Char :=
    match cs with
    | c :: r => if c = '-' then (true, r) else (false, cs)
    | [] => (false, cs)
  let neg := signed.1
  let intDs := takeDigits signed.2
  if intDs.1.isEmpty then none
  else if 1 < intDs.1.length ∧ intDs.1.head? = some '0' then none
  else
    match intDs.2 with
    | '.' :: r =>
      let fracDs := takeDigits r
      if fracDs.1.isEmpty then none
      else
        let mag : Nat := digitsToNat intDs.1 * 10 ^ fracDs.1.length + digitsToNat fracDs.1
        let mant : Int := (if neg then -1 else 1) * (mag : Int)
        parseExpPart mant (-(fracDs.1.length : Int)) true fracDs.2
    | rest =>
      let n : Int := (if neg then -1 else 1) * (digitsToNat intDs.1 : Int)
      parseExpPart n 0 false rest

mutual

/-- Parse one JSON value (leading whitespace allowed), fuel-recursive. -/
def parseValue : Nat → List Char → Option (JValue × List Char)
  | 0, _ => none
  | fuel + 1, cs =>
    match skipWs cs with
    | [] => none
    | c :: r =>
      if c = '"' then
        match parseStringBody (r.length + 1) r with
        | some (s, rest) => some (.jstr s, rest)
        | none => none
      else if c = '[' then
        match skipWs r with
        | ']' :: rest => some (.jarr [], rest)
        | r' =>
          match parseElems fuel r' with
          | some (xs, rest) => some (.jarr xs, rest)
          | none => none
      else if c = lbrace then
        match skipWs r with
        | c2 :: rest =>
          if c2 = rbrace then some (.jobj [], rest)
          else
            match parseMembers fuel (c2 :: rest) with
            | some (ms, rest') => some (.jobj ms, rest')
            | none => none
        | [] => none
      else if c = 't' then
        (stripKeyword ['t', 'r', 'u', 'e'] (c :: r)).map (fun rest => (.jbool true, rest))
      else if c = 'f' then
        (stripKeyword ['f', 'a', 'l', 's', 'e'] (c :: r)).map (fun rest => (.jbool false, rest))
      else if c = 'n' then
        (stripKeyword ['n', 'u', 'l', 'l'] (c :: r)).map (fun rest => (.jnull, rest))
      else if c = '-' ∨ c.isDigit then parseNumber (c :: r)
      else none

/-- Parse the comma-separated elements of a nonempty array, including the
closing bracket. -/
def parseElems : Nat → List Char → Option (List JValue × List Char)
  | 0, _ => none
  | fuel + 1, cs =>
    match parseValue fuel cs with
    | none => none
    | some (v, rest) =>
      match skipWs rest with
      | c :: r2 =>
        if c = ',' then
          match parseElems fuel r2 with
          | some (vs, rest2) => some (v :: vs, rest2)
          | none => none
        else if c = ']' then some ([v], r2)
        else none
      | [] => none

/-- Parse the comma-separated members of a nonempty object, including the
closing brace. -/
def parseMembers : Nat → List Char → Option (List (String × JValue) × List Char)
  | 0, _ => none
  | fuel + 1, cs =>
    match skipWs cs with
    | c :: r =>
      if c = '"' then
        match parseStringBody (r.length + 1) r with
        | some (k, rest) =>
          match skipWs rest with
          | c2 :: r2 =>
            if c2 = ':' then
              match parseValue fuel r2 with
              | some (v, rest2) =>
                match skipWs rest2 with
                | c3 :: r3 =>
                  if c3 = ',' then
                    match parseMembers fuel r3 with
                    | some (ms, rest3) => some ((k, v) :: ms, rest3)
                    | none => none
                  else if c3 = rbrace then some ([(k, v)], r3)
                  else none
                | [] => none
              | none => none
            else none
          | [] => none
        | none => none
      else none
    | [] => none

end

/-- Parse a whole JSON document: one value with optional surrounding
whitespace, nothing else. -/
def parseJson (s : String) : Option JValue :=
  match parseValue (s.length + 1) s.data with
  | some (v, rest) => if (skipWs rest).isEmpty then some v else none
  | none => none

/-- Exact integer value of `mantissa * 10 ^ e`, when integral. -/
def floatToInt (mantissa : Int) (e : Int) : Option Int :=
  match e with
  | .ofNat n => some (mantissa * (10 : Int) ^ n)
  | .negSucc k =>
    let d : Int := (10 : Int) ^ (k + 1)
    if mantissa % d = 0 then some (mantissa / d) else none

/-- pydantic lax coercion of a string to an int: after trimming surrounding
spaces, an optional minus sign followed by decimal digits. -/
def strToInt (s : String) : Option Int :=
  let cs := ((s.data.dropWhile (fun c => c = ' ')).reverse.dropWhile
    (fun c => c = ' ')).reverse
  let signed : Bool × List Char :=
    match cs with
    | c :: r => if c = '-' then (true, r) else (false, cs)
    | [] => (false, [])
  if signed.2.isEmpty ∨ ¬ signed.2.all Char.isDigit then none
  else some ((if signed.1 then -1 else 1) * (digitsToNat signed.2 : Int))

/-- pydantic v2 lax (default-mode) coercion of a JSON value to an `int` field:
ints pass through; floats are accepted exactly when their value is integral;
strings are accepted when they are a decimal integer numeral; booleans, null,
arrays and objects are rejected. -/
def laxInt : JValue → Option Int
  | .jint n => some n
  | .jfloat m e => floatToInt m e
  | .jstr s => strToInt s
  | _ => none

/-- Key lookup in a parsed JSON object; on duplicate keys the later entry
wins, as when building a Python dict from parsed members. -/
def lookupField (fields : List (String × JValue)) (k : String) : Option JValue :=
  match fields with
  | [] => none
  | (k', v) :: rest =>
    match lookupField rest k with
    | some v' => some v'
    | none => if k' = k then some v else none

/-- The output schema, src/backend/model.py lines 14-16: integer fields `x`
and `y`, each with `ge=0, le=1000`. -/
structure ClickCoordinates where
  x : Int
  y : Int
deriving DecidableEq

/-- Validation of one required int field carrying `ge=0, le=1000`. -/
def validateIntField (fields : List (String × JValue)) (k : String) :
    Except String Int :=
  match lookupField fields k with
  | none => .error (k ++ ": Field required")
  | some v =>
    match laxInt v with
    | none => .error (k ++ ": Input should be a valid integer")
    | some n =>
      if n < 0 then .error (k ++ ": Input should be greater than or equal to 0")
      else if 1000 < n then .error (k ++ ": Input should be less than or equal to 1000")
      else .ok n

/-- `ClickCoordinates.model_validate_json` (called at model.py line 150):
parse the document as JSON, require a JSON object, and validate its `x` and
`y` members; any failure raises pydantic's `ValidationError`, modelled as
`Except.error`. -/
def ClickCoordinates.model_validate_json (content : String) :
    Except String ClickCoordinates :=
  match parseJson content with
  | none => .error "Invalid JSON"
  | some (.jobj fields) =>
    match validateIntField fields "x", validateIntField fields "y" with
    | .ok x, .ok y => .ok { x := x, y := y }
    | .error e, _ => .error e
    | _, .error e => .error e
  | some _ => .error "Input should be a valid dictionary or instance of ClickCoordinates"

/-- The validate-and-denormalize step of `process_image_task`
(model.py lines 149-154) in isolation — the spec's `validateAndMap`:
validate the answer text against `ClickCoordinates`, then map to pixel space
by `x / 1000 * width` and `y / 1000 * height` (Python float division,
modelled exactly over ℚ). Returns `(x, y, x_pixel, y_pixel)`. -/
def validateAndMap (content : String) (width height : Nat) :
    Except String (Int × Int × ℚ × ℚ) :=
  match ClickCoordinates.model_validate_json content with
  | .error e => .error e
  | .ok a => .ok (a.x, a.y, (a.x : ℚ) / 1000 * width, (a.y : ℚ) / 1000 * height)

/-- Acceptance as the amended claim C2 words it: the text parses as a JSON
object whose `x` and `y` members both exist and lax-coerce to integers lying
in [0, 1000]. -/
def specLaxAccepts (s : String) : Prop :=
  ∃ fields vx vy x y,
    parseJson s = some (.jobj fields) ∧
    lookupField fields "x" = some vx ∧ lookupField fields "y" = some vy ∧
    laxInt vx = some x ∧ laxInt vy = some y ∧
    0 ≤ x ∧ x ≤ 1000 ∧ 0 ≤ y ∧ y ≤ 1000

/-! ### Geometry: pre-resize and grid alignment (model.py lines 96-117) -/

/-- Image dimensions (width, height). Pixel content never affects any claim
here; the resampling filter only fills the buffer of the computed size. -/
structure Img where
  width : Nat
  height : Nat
deriving DecidableEq

/-- model.py line 97. -/
def MAX_DIMENSION : Nat := 1280

/-- Python `round(h / f)` for `h f : Nat`, `f > 0`: round-half-to-even of the
quotient. Python computes it on the float `h / f`; the model is the exact
rational value, which the float agrees with at every reachable scale (ties
`h / f = k + 1/2` are exactly representable, being dyadic after reduction
only when the float is exact; nearby non-ties round identically). -/
def pyRoundDiv (h f : Nat) : Nat :=
  let q := h / f
  let r := h % f
  if 2 * r < f then q
  else if f < 2 * r then q + 1
  else if q % 2 = 0 then q else q + 1

/-- `⌈√n⌉` over ℕ. -/
def natCeilSqrt (n : Nat) : Nat :=
  if Nat.sqrt n * Nat.sqrt n = n then Nat.sqrt n else Nat.sqrt n + 1

/-- `⌊√(a / b)⌋` for `b > 0`: since `√(a/b) = √(ab)/b` and `⌊x/b⌋ = ⌊⌊x⌋/b⌋`
for integer `b > 0`, this is `⌊√(ab)⌋ / b`. -/
def natFloorSqrtDiv (a b : Nat) : Nat := Nat.sqrt (a * b) / b

/-- `⌈√(a / b)⌉` for `b > 0`: since `⌈x/b⌉ = ⌈⌈x⌉/b⌉`, this is `⌈⌈√(ab)⌉/b⌉`. -/
def natCeilSqrtDiv (a b : Nat) : Nat := (natCeilSqrt (a * b) + b - 1) / b

/-- `smart_resize` from
`transformers.models.qwen2_vl.image_processing_qwen2_vl` (imported at
model.py line 10; an external collaborator, modelled from its source):

  - raise when `height < factor or width < factor`;
  - raise when the absolute aspect ratio exceeds 200
    (`max / min > 200`, i.e. `200 * min < max` exactly over ℚ);
  - `h_bar = round(height / factor) * factor` and likewise for width;
  - if `h_bar * w_bar > max_pixels`, shrink by `beta = sqrt(h*w/max_pixels)`:
    `h_bar = floor(height / beta / factor) * factor`, and `height / beta`
    equals `√(height * max_pixels / width)`, so the exact value is
    `natFloorSqrtDiv (height * max_pixels) width / factor * factor`;
  - else if `h_bar * w_bar < min_pixels`, grow by `beta = sqrt(min_pixels/(h*w))`:
    `h_bar = ceil(height * beta / factor) * factor`, and `height * beta`
    equals `√(height * min_pixels / width)`.

Python evaluates the two beta branches with float `math.sqrt`; the model is
the exact real value, computed through integer square roots. Exceptions are
modelled as `Except.error`. -/
def smart_resize (height width factor min_pixels max_pixels : Nat) :
    Except String (Nat × Nat) :=
  if height < factor ∨ width < factor then
    .error "height or width must be larger than factor"
  else if 200 * min height width < max height width then
    .error "absolute aspect ratio must be smaller than 200"
  else
    let h_bar := pyRoundDiv height factor * factor
    let w_bar := pyRoundDiv width factor * factor
    if max_pixels < h_bar * w_bar then
      .ok (natFloorSqrtDiv (height * max_pixels) width / factor * factor,
           natFloorSqrtDiv (width * max_pixels) height / factor * factor)
    else if h_bar * w_bar < min_pixels then
      .ok ((natCeilSqrtDiv (height * min_pixels) width + factor - 1) / factor * factor,
           (natCeilSqrtDiv (width * min_pixels) height + factor - 1) / factor * factor)
    else
      .ok (h_bar, w_bar)

/-- The pre-resize of model.py lines 98-103: when the longer side exceeds
`MAX_DIMENSION`, scale both sides by `ratio = MAX_DIMENSION / max(w, h)` and
truncate (`int(...)` on a nonnegative float is floor; the exact value is the
`Nat` division `w * MAX_DIMENSION / m`). -/
def pre_resize (img : Img) : Img :=
  if MAX_DIMENSION < max img.width img.height then
    let m := max img.width img.height
    { width := img.width * MAX_DIMENSION / m,
      height := img.height * MAX_DIMENSION / m }
  else img

/-- The spec's `normalize` on dimensions (model.py lines 96-117): pre-resize,
then grid alignment through `smart_resize` with
`factor = patch_size * merge_size`, `min_pixels = size["shortest_edge"]`,
`max_pixels = size["longest_edge"]`. Returns the final `(height, width)`. -/
def normalizeDims (img : Img) (patch_size merge_size min_pixels max_pixels : Nat) :
    Except String (Nat × Nat) :=
  let pre := pre_resize img
  smart_resize pre.height pre.width (patch_size * merge_size) min_pixels max_pixels

/-! ### The pipeline: process_image_task (model.py 81-187) and the
/api/process route (app.py 49-128) -/

/-- The success payload of `process_image_task` (model.py lines 161-174).
The base64 re-encoding of the processed image (`processed_image` in the dict)
is an external codec round-trip carrying no claim content and is omitted. -/
structure ResultPayload where
  task : String
  x : Int
  y : Int
  x_pixel : ℚ
  y_pixel : ℚ
  image_width : Nat
  image_height : Nat
  thinking : String
  raw_content : String
deriving DecidableEq

/-- The three possible dict shapes `process_image_task` returns: the success
payload, the parse-failure dict of lines 176-180 (keys `error`, `raw_content`,
`thinking`, with the `error` value prefixed `Failed to parse result: `), and
the catch-all failure dict of lines 185-187 (single key `error` prefixed
`Processing failed: `). -/
inductive TaskResult where
  | ok (payload : ResultPayload)
  | parseFailure (msg raw thinking : String)
  | processingFailure (msg : String)
deriving DecidableEq

/-- Does the result land in the catch-all `Processing failed` branch? -/
def TaskResult.isProcessingFailure : TaskResult → Bool
  | .processingFailure _ => true
  | _ => false

/-- `process_image_task` (model.py lines 81-187) over explicit collaborators:
`gen` is the generation capability (prompt building through
`get_chat_messages` / `apply_chat_template` and `model.generate`, collapsed into
one black box from the processed image and task to a token sequence, failing
as `Except.error` when generation raises), `decode` the tokenizer. Any
exception escaping the body — smart_resize's `ValueError`s or a generation
failure — is caught by the outer `except` and reported as the catch-all
`Processing failed` dict; a pydantic `ValidationError` from
`model_validate_json` is caught by the inner `except` as the
`Failed to parse result` dict. -/
def process_image_task (gen : Img → String → Except String (List Nat))
    (decode : List Nat → String)
    (patch_size merge_size min_pixels max_pixels : Nat)
    (image : Img) (task : String) : TaskResult :=
  let pre := pre_resize image
  match smart_resize pre.height pre.width (patch_size * merge_size)
      min_pixels max_pixels with
  | .error e => .processingFailure ("Processing failed: " ++ e)
  | .ok (resized_height, resized_width) =>
    let processed : Img := { width := resized_width, height := resized_height }
    match gen processed task with
    | .error e => .processingFailure ("Processing failed: " ++ e)
    | .ok generated_ids =>
      let parsed := parse_reasoning decode generated_ids
      let content := parsed.1
      let thinking_content := parsed.2
      match ClickCoordinates.model_validate_json content with
      | .error e => .parseFailure ("Failed to parse result: " ++ e) content thinking_content
      | .ok action =>
        .ok { task := task
              x := action.x
              y := action.y
              x_pixel := (action.x : ℚ) / 1000 * processed.width
              y_pixel := (action.y : ℚ) / 1000 * processed.height
              image_width := processed.width
              image_height := processed.height
              thinking := thinking_content
              raw_content := content }

/-- The JSON body of a /api/process request after `data.get` defaulting
(app.py lines 76-78): missing keys default to the empty string (`task_type`
to "click", unused downstream). -/
structure RequestData where
  image : String
  task : String
  task_type : String
deriving DecidableEq

/-- The distinct responses of the /api/process route: the 400 early-validation
errors (lines 73-95), the 500 failure report (lines 105-111), and the 200
success envelope (lines 115-119). -/
inductive ApiResponse where
  | badRequest (msg : String)
  | failure (msg : String)
  | success (r : ResultPayload)
deriving DecidableEq

/-- The route's result handling, app.py lines 105-119: a dict carrying an
`error` key becomes the 500 failure report with that error string; otherwise
the success envelope is returned. -/
def handle_task_result : TaskResult → ApiResponse
  | .ok r => .success r
  | .parseFailure msg _ _ => .failure msg
  | .processingFailure msg => .failure msg

/-- The /api/process handler `process_image` (app.py lines 49-128) over the
same collaborators plus `decodeImage`, the base64+PIL image decoding of lines
88-95 (failing as `Except.error` when `Image.open` raises). Python's
`if not data` / `if not image_data` / `if not task` are emptiness tests on
the defaulted strings (`request.json` being `None` is `data = none`). -/
def process_image (decodeImage : String → Except String Img)
    (gen : Img → String → Except String (List Nat))
    (decode : List Nat → String)
    (patch_size merge_size min_pixels max_pixels : Nat)
    (data : Option RequestData) : ApiResponse :=
  match data with
  | none => .badRequest "No data provided"
  | some d =>
    if d.image = "" then .badRequest "No image provided"
    else if d.task = "" then .badRequest "No task provided"
    else
      match decodeImage d.image with
      | .error e => .badRequest ("Invalid image data: " ++ e)
      | .ok image =>
        handle_task_result (process_image_task gen decode patch_size merge_size
          min_pixels max_pixels image d.task)

/-! ### Concrete collaborator instances used to instantiate theorems -/

/-- A generation capability answering every prompt with the one-token
sequence `[1]`. -/
def genConst : Img → String → Except String (List Nat) := fun _ _ => .ok [1]

/-- A generation capability that always raises (resource exhaustion). -/
def genBoom : Img → String → Except String (List Nat) :=
  fun _ _ => .error "CUDA out of memory"

/-- A tokenizer decoding the sequence `[1]` to the canonical coordinate
answer and everything else to the empty string. -/
def decodeJson500 : List Nat → String :=
  fun ids => if ids = [1] then "\x7b\"x\": 500, \"y\": 250\x7d" else ""

/-- An image decoder producing an 800x600 image for every payload. -/
def decodeImage800 : String → Except String Img := fun _ => .ok ⟨800, 600⟩

deriving instance DecidableEq for Except

/-! ## Theorems -/

theorem pyIndex_eq_none_iff (l : List Nat) (t : Nat) :
    pyIndex l t = none ↔ t ∉ l := by
  induction l with
  | nil => simp [pyIndex]
  | cons a l ih =>
    by_cases h : a = t
    · simp [pyIndex, h]
    · simp only [pyIndex, if_neg h, Option.map_eq_none', ih, List.mem_cons]
      constructor
      · intro hn hor
        rcases hor with h1 | h2
        · exact h h1.symm
        · exact hn h2
      · intro hn hmem
        exact hn (Or.inr hmem)

theorem pyIndex_decomp (l : List Nat) (t : Nat) (s : Nat)
    (h : pyIndex l t = some s) :
    ∃ l1 l2, l = l1 ++ t :: l2 ∧ l1.length = s ∧ t ∉ l1 := by
  induction l generalizing s with
  | nil => simp [pyIndex] at h
  | cons a l ih =>
    by_cases ha : a = t
    · simp only [pyIndex, if_pos ha] at h
      obtain rfl : (0 : Nat) = s := Option.some.inj h
      exact ⟨[], l, by simp [ha], rfl, by simp⟩
    · simp only [pyIndex, if_neg ha, Option.map_eq_some'] at h
      obtain ⟨s', hs', rfl⟩ := h
      obtain ⟨l1, l2, rfl, hlen, hni⟩ := ih s' hs'
      refine ⟨a :: l1, l2, rfl, by simp [hlen], ?_⟩
      simp only [List.mem_cons, not_or]
      exact ⟨fun ht => ha ht.symm, hni⟩

theorem pyIndex_append_of_not_mem (l1 l2 : List Nat) (t : Nat) (h : t ∉ l1) :
    pyIndex (l1 ++ l2) t = (pyIndex l2 t).map (· + l1.length) := by
  induction l1 with
  | nil =>
    cases hx : pyIndex l2 t <;> simp [hx]
  | cons a l1 ih =>
    simp only [List.mem_cons, not_or] at h
    have ha : ¬ a = t := fun he => h.1 he.symm
    show (if a = t then some 0 else (pyIndex (l1 ++ l2) t).map (· + 1)) = _
    rw [if_neg ha, ih h.2]
    cases pyIndex l2 t with
    | none => rfl
    | some j =>
      simp only [Option.map_some', List.length_cons, Option.some.injEq]
      omega

/-- Unfolding of `parse_reasoning` when the start sentinel occurs: the end
boundary is the code's global first `REASONING_END` (or the sequence length
when absent). -/
theorem parse_reasoning_eq_of_start (decode : List Nat → String) (ids : List Nat)
    (s : Nat) (hs : pyIndex ids REASONING_START = some s) :
    parse_reasoning decode ids =
      (pyStripNewlines
        (decode (ids.drop ((pyIndex ids REASONING_END).getD ids.length + 1))),
       pyStripNewlines
        (decode ((ids.drop (s + 1)).take
          ((pyIndex ids REASONING_END).getD ids.length - (s + 1))))) := by
  have hne : ((s : Int) ≠ -1) := by omega
  cases he : pyIndex ids REASONING_END with
  | none => simp [parse_reasoning, hs, he, hne]
  | some e => simp [parse_reasoning, hs, he, hne]

theorem pyStripNewlines_empty : pyStripNewlines "" = "" := rfl

/-- C6: if `REASONING_START` does not occur in the token sequence, the parser
returns an empty reasoning text and an answer equal to the entire decoded
sequence (special tokens suppressed by `decode`, surrounding newlines
trimmed), whether or not `REASONING_END` occurs. -/
theorem c6_no_start_full_decode (decode : List Nat → String) (ids : List Nat)
    (h : REASONING_START ∉ ids) :
    parse_reasoning decode ids = (pyStripNewlines (decode ids), "") := by
  have h1 : pyIndex ids REASONING_START = none := (pyIndex_eq_none_iff _ _).mpr h
  simp [parse_reasoning, h1]

/-- Witness for C6 at the concrete sequence `[7, 151668, 42]` (which even
contains `REASONING_END`). -/
theorem c6_witness :
    REASONING_START ∉ [7, 151668, 42] ∧
      parse_reasoning decodeNum [7, 151668, 42] = ("742", "") :=
  ⟨by decide, (c6_no_start_full_decode decodeNum [7, 151668, 42] (by decide)).trans
    (by decide)⟩

/-- C7: if `REASONING_START` occurs (first at index `s`) but `REASONING_END`
does not, the reasoning text is the decoded tokens from just after the start
sentinel to the end of the sequence, and the answer text is empty. -/
theorem c7_unterminated_reasoning (decode : List Nat → String) (ids : List Nat)
    (s : Nat) (hs : pyIndex ids REASONING_START = some s)
    (he : pyIndex ids REASONING_END = none) (hdec : decode [] = "") :
    parse_reasoning decode ids = ("", pyStripNewlines (decode (ids.drop (s + 1)))) := by
  have hdrop : ids.drop (ids.length + 1) = ([] : List Nat) :=
    List.drop_eq_nil_of_le (by omega)
  have htake : (ids.drop (s + 1)).take (ids.length - (s + 1)) = ids.drop (s + 1) := by
    conv_lhs => rw [show ids.length - (s + 1) = (ids.drop (s + 1)).length by
      simp [List.length_drop]]
    exact List.take_length _
  simp [parse_reasoning, hs, he, hdrop, htake, hdec, pyStripNewlines_empty]

/-- Witness for C7 at the concrete sequence `[151667, 42]`. -/
theorem c7_witness :
    pyIndex [151667, 42] REASONING_START = some 0 ∧
      pyIndex [151667, 42] REASONING_END = none ∧
      parse_reasoning decodeNum [151667, 42] = ("", "42") :=
  ⟨by decide, by decide,
    (c7_unterminated_reasoning decodeNum [151667, 42] 0 (by decide) (by decide)
      (by decide)).trans (by decide)⟩

/-- C1 counterexample: in `[151668, 151667, 42]` the only `REASONING_END`
occurrence precedes `REASONING_START`, so the spec's boundary (first END
*after* START, here absent, hence end-of-sequence) gives reasoning `"42"` and
answer `""` — but the code searches for `REASONING_END` from the beginning of
the sequence and returns answer `"42"` with empty reasoning. -/
theorem c1_counterexample :
    REASONING_START ∈ [151668, 151667, 42] ∧
      parse_reasoning decodeNum [151668, 151667, 42] ≠
        specParseTokens decodeNum [151668, 151667, 42] := by
  constructor
  · decide
  · intro h
    have : ("42", "") = ("", "42") := by
      calc ("42", "") = parse_reasoning decodeNum [151668, 151667, 42] := by decide
        _ = specParseTokens decodeNum [151668, 151667, 42] := h
        _ = ("", "42") := by decide
    simp at this

/-- C1 (amended): provided no `REASONING_END` occurs *before* the first
`REASONING_START`, the code's global search for `REASONING_END` coincides
with the spec's "first occurrence after the start sentinel", and the parser
returns exactly the spec's split: reasoning strictly between the sentinels
(end-of-sequence when no end sentinel follows), answer strictly after the end
boundary. -/
theorem c1_amended_boundaries (decode : List Nat → String) (ids : List Nat)
    (s : Nat) (hs : pyIndex ids REASONING_START = some s)
    (hpre : REASONING_END ∉ ids.take s) :
    parse_reasoning decode ids = specParseTokens decode ids := by
  obtain ⟨l1, l2, rfl, hlen, hni⟩ := pyIndex_decomp _ _ _ hs
  rw [← hlen, List.take_left] at hpre
  have hne2 : REASONING_END ∉ l1 ++ [REASONING_START] := by
    simp only [List.mem_append, List.mem_singleton, not_or]
    exact ⟨hpre, by decide⟩
  have hsplit : l1 ++ REASONING_START :: l2 = (l1 ++ [REASONING_START]) ++ l2 := by
    simp
  have hidxEnd : pyIndex (l1 ++ REASONING_START :: l2) REASONING_END =
      (pyIndex l2 REASONING_END).map (· + (s + 1)) := by
    rw [hsplit, pyIndex_append_of_not_mem _ _ _ hne2]
    simp [← hlen]
  have hdrop : (l1 ++ REASONING_START :: l2).drop (s + 1) = l2 := by
    rw [hsplit, ← hlen]
    have h1 : l1.length + 1 = (l1 ++ [REASONING_START]).length := by simp
    rw [h1, List.drop_left]
  rw [parse_reasoning_eq_of_start decode _ s hs]
  cases hcase : pyIndex l2 REASONING_END with
  | none =>
    have hsub : (l1 ++ REASONING_START :: l2).length - (s + 1) = l2.length := by
      simp only [List.length_append, List.length_cons, ← hlen]
      omega
    have hdropAll : (l1 ++ REASONING_START :: l2).drop
        ((l1 ++ REASONING_START :: l2).length + 1) = ([] : List Nat) :=
      List.drop_eq_nil_of_le (by omega)
    simp only [specParseTokens, hs, hidxEnd, hcase, Option.map_none',
      Option.getD_none, hdrop, hsub, List.take_length, hdropAll]
  | some j =>
    have hsub : j + (s + 1) - (s + 1) = j := by omega
    have hdropE : (l1 ++ REASONING_START :: l2).drop (j + (s + 1) + 1) =
        l2.drop (j + 1) := by
      have h1 : j + (s + 1) + 1 = (s + 1) + (j + 1) := by omega
      rw [h1, ← List.drop_drop, hdrop]
    simp only [specParseTokens, hs, hidxEnd, hcase, Option.map_some',
      Option.getD_some, hdrop, hsub, hdropE]

/-- Witness for C1 (amended) at `[5, 151667, 42, 151668, 9]`: reasoning
`"42"`, answer `"9"`. -/
theorem c1_witness :
    pyIndex [5, 151667, 42, 151668, 9] REASONING_START = some 1 ∧
      REASONING_END ∉ [5, 151667, 42, 151668, 9].take 1 ∧
      parse_reasoning decodeNum [5, 151667, 42, 151668, 9] = ("9", "42") :=
  ⟨by decide, by decide,
    (c1_amended_boundaries decodeNum [5, 151667, 42, 151668, 9] 1 (by decide)
      (by decide)).trans (by decide)⟩

theorem validateIntField_ok_iff (fields : List (String × JValue)) (k : String)
    (n : Int) :
    validateIntField fields k = .ok n ↔
      ∃ v, lookupField fields k = some v ∧ laxInt v = some n ∧
        0 ≤ n ∧ n ≤ 1000 := by
  constructor
  · intro hc
    unfold validateIntField at hc
    split at hc
    next => exact Except.noConfusion hc
    next v hv =>
      split at hc
      next => exact Except.noConfusion hc
      next m hm =>
        by_cases h1 : m < 0
        · rw [if_pos h1] at hc
          exact Except.noConfusion hc
        · rw [if_neg h1] at hc
          by_cases h2 : 1000 < m
          · rw [if_pos h2] at hc
            exact Except.noConfusion hc
          · rw [if_neg h2] at hc
            obtain rfl := Except.ok.inj hc
            exact ⟨v, hv, hm, by omega, by omega⟩
  · rintro ⟨v, hv, hm, h0, h1⟩
    simp only [validateIntField, hv, hm]
    rw [if_neg (by omega), if_neg (by omega)]

theorem model_validate_json_eq_of_obj (s : String)
    (fields : List (String × JValue))
    (hp : parseJson s = some (.jobj fields)) :
    ClickCoordinates.model_validate_json s =
      (match validateIntField fields "x", validateIntField fields "y" with
       | .ok x, .ok y => .ok { x := x, y := y }
       | .error e, _ => .error e
       | _, .error e => .error e) := by
  unfold ClickCoordinates.model_validate_json
  rw [hp]

theorem model_validate_json_isOk_iff (s : String) :
    (ClickCoordinates.model_validate_json s).isOk = true ↔ specLaxAccepts s := by
  cases hp : parseJson s with
  | none =>
    have hmv : ClickCoordinates.model_validate_json s = .error "Invalid JSON" := by
      unfold ClickCoordinates.model_validate_json
      rw [hp]
    rw [hmv]
    constructor
    · intro hok; exact Bool.noConfusion hok
    · rintro ⟨f, vx, vy, x, y, hpj, -⟩
      rw [hp] at hpj
      exact Option.noConfusion hpj
  | some v =>
    cases v with
    | jobj fields =>
      rw [model_validate_json_eq_of_obj s fields hp]
      constructor
      · intro hok
        cases hx : validateIntField fields "x" with
        | error e =>
          cases hy : validateIntField fields "y" with
          | error e2 => rw [hx, hy] at hok; exact Bool.noConfusion hok
          | ok y => rw [hx, hy] at hok; exact Bool.noConfusion hok
        | ok x =>
          cases hy : validateIntField fields "y" with
          | error e => rw [hx, hy] at hok; exact Bool.noConfusion hok
          | ok y =>
            obtain ⟨vx, hvx, hlx, hx0, hx1⟩ := (validateIntField_ok_iff _ _ _).mp hx
            obtain ⟨vy, hvy, hly, hy0, hy1⟩ := (validateIntField_ok_iff _ _ _).mp hy
            exact ⟨fields, vx, vy, x, y, hp, hvx, hvy, hlx, hly, hx0, hx1, hy0, hy1⟩
      · rintro ⟨f, vx, vy, x, y, hf, hvx, hvy, hlx, hly, hx0, hx1, hy0, hy1⟩
        rw [hp] at hf
        obtain rfl : fields = f := JValue.jobj.inj (Option.some.inj hf)
        have hx : validateIntField fields "x" = .ok x :=
          (validateIntField_ok_iff _ _ _).mpr ⟨vx, hvx, hlx, hx0, hx1⟩
        have hy : validateIntField fields "y" = .ok y :=
          (validateIntField_ok_iff _ _ _).mpr ⟨vy, hvy, hly, hy0, hy1⟩
        rw [hx, hy]
        rfl
    | jnull =>
      have hmv : ClickCoordinates.model_validate_json s =
          .error "Input should be a valid dictionary or instance of ClickCoordinates" := by
        unfold ClickCoordinates.model_validate_json
        rw [hp]
      rw [hmv]
      constructor
      · intro hok; exact Bool.noConfusion hok
      · rintro ⟨f, vx, vy, x, y, hpj, -⟩
        rw [hp] at hpj
        exact JValue.noConfusion (Option.some.inj hpj)
    | jbool b =>
      have hmv : ClickCoordinates.model_validate_json s =
          .error "Input should be a valid dictionary or instance of ClickCoordinates" := by
        unfold ClickCoordinates.model_validate_json
        rw [hp]
      rw [hmv]
      constructor
      · intro hok; exact Bool.noConfusion hok
      · rintro ⟨f, vx, vy, x, y, hpj, -⟩
        rw [hp] at hpj
        exact JValue.noConfusion (Option.some.inj hpj)
    | jint n =>
      have hmv : ClickCoordinates.model_validate_json s =
          .error "Input should be a valid dictionary or instance of ClickCoordinates" := by
        unfold ClickCoordinates.model_validate_json
        rw [hp]
      rw [hmv]
      constructor
      · intro hok; exact Bool.noConfusion hok
      · rintro ⟨f, vx, vy, x, y, hpj, -⟩
        rw [hp] at hpj
        exact JValue.noConfusion (Option.some.inj hpj)
    | jfloat m e =>
      have hmv : ClickCoordinates.model_validate_json s =
          .error "Input should be a valid dictionary or instance of ClickCoordinates" := by
        unfold ClickCoordinates.model_validate_json
        rw [hp]
      rw [hmv]
      constructor
      · intro hok; exact Bool.noConfusion hok
      · rintro ⟨f, vx, vy, x, y, hpj, -⟩
        rw [hp] at hpj
        exact JValue.noConfusion (Option.some.inj hpj)
    | jstr t =>
      have hmv : ClickCoordinates.model_validate_json s =
          .error "Input should be a valid dictionary or instance of ClickCoordinates" := by
        unfold ClickCoordinates.model_validate_json
        rw [hp]
      rw [hmv]
      constructor
      · intro hok; exact Bool.noConfusion hok
      · rintro ⟨f, vx, vy, x, y, hpj, -⟩
        rw [hp] at hpj
        exact JValue.noConfusion (Option.some.inj hpj)
    | jarr xs =>
      have hmv : ClickCoordinates.model_validate_json s =
          .error "Input should be a valid dictionary or instance of ClickCoordinates" := by
        unfold ClickCoordinates.model_validate_json
        rw [hp]
      rw [hmv]
      constructor
      · intro hok; exact Bool.noConfusion hok
      · rintro ⟨f, vx, vy, x, y, hpj, -⟩
        rw [hp] at hpj
        exact JValue.noConfusion (Option.some.inj hpj)

theorem validateAndMap_isOk (s : String) (w h : Nat) :
    (validateAndMap s w h).isOk = (ClickCoordinates.model_validate_json s).isOk := by
  unfold validateAndMap
  cases hm : ClickCoordinates.model_validate_json s <;> rfl

theorem validateAndMap_canonical :
    validateAndMap "\x7b\"x\": 500, \"y\": 250\x7d" 800 600 =
      .ok (500, 250, 400, 150) := by
  have h1 : ClickCoordinates.model_validate_json "\x7b\"x\": 500, \"y\": 250\x7d" =
      .ok ⟨500, 250⟩ := by decide
  unfold validateAndMap
  rw [h1]
  simp only [Except.ok.injEq, Prod.mk.injEq]
  norm_num

/-- C2 counterexample: pydantic's default validation mode is lax, so the
JSON-string value `"500"` — not an integer value — is coerced to the integer
500 and accepted, refuting "rejects ... non-integer value ... no coercion". -/
theorem c2_counterexample :
    validateAndMap "\x7b\"x\": \"500\", \"y\": 250\x7d" 800 600 =
      .ok (500, 250, 400, 150) := by
  have h1 : ClickCoordinates.model_validate_json "\x7b\"x\": \"500\", \"y\": 250\x7d" =
      .ok ⟨500, 250⟩ := by decide
  unfold validateAndMap
  rw [h1]
  simp only [Except.ok.injEq, Prod.mk.injEq]
  norm_num

/-- C2 (amended): `validateAndMap` rejects with a reported error (not a
crash) exactly when the answer text fails lax validation — when it is not
valid JSON, is not a JSON object, is missing `x` or `y`, has a value that
does not lax-coerce to an integer (pydantic's default mode accepts integral
floats and decimal numeral strings, so such values are coerced, not
rejected), or has a coerced value outside [0, 1000]. In particular the
out-of-range `y: 1001` object and the non-JSON text `click here` are both
rejected. -/
theorem c2_amended_lax_validation (s : String) (w h : Nat) :
    ((validateAndMap s w h).isOk = true ↔ specLaxAccepts s) ∧
      (validateAndMap "\x7b\"x\": 1000, \"y\": 1001\x7d" w h).isOk = false ∧
      (validateAndMap "click here" w h).isOk = false := by
  refine ⟨?_, ?_, ?_⟩
  · rw [validateAndMap_isOk]
    exact model_validate_json_isOk_iff s
  · rw [validateAndMap_isOk]
    decide
  · rw [validateAndMap_isOk]
    decide

/-- C5: whenever validation succeeds, the returned pixel coordinate is exactly
the linear denormalization `x / 1000 * width`, `y / 1000 * height` (over ℚ);
in particular `x: 500, y: 250` against an 800x600 image yields exactly
(400, 150). -/
theorem c5_pixel_denormalization (s : String) (w h : Nat)
    (r : Int × Int × ℚ × ℚ) (hok : validateAndMap s w h = .ok r) :
    r.2.2.1 = (r.1 : ℚ) / 1000 * w ∧ r.2.2.2 = (r.2.1 : ℚ) / 1000 * h ∧
      validateAndMap "\x7b\"x\": 500, \"y\": 250\x7d" 800 600 =
        .ok (500, 250, 400, 150) := by
  unfold validateAndMap at hok
  cases hm : ClickCoordinates.model_validate_json s with
  | error e => rw [hm] at hok; exact Except.noConfusion hok
  | ok a =>
    rw [hm] at hok
    obtain rfl := (Except.ok.inj hok).symm
    exact ⟨rfl, rfl, validateAndMap_canonical⟩

/-- Witness for C5 at the canonical example. -/
theorem c5_witness :
    (400 : ℚ) = ((500 : Int) : ℚ) / 1000 * ((800 : Nat) : ℚ) ∧
      (150 : ℚ) = ((250 : Int) : ℚ) / 1000 * ((600 : Nat) : ℚ) ∧
      validateAndMap "\x7b\"x\": 500, \"y\": 250\x7d" 800 600 =
        .ok (500, 250, 400, 150) :=
  c5_pixel_denormalization "\x7b\"x\": 500, \"y\": 250\x7d" 800 600
    (500, 250, 400, 150) validateAndMap_canonical

theorem pre_resize_max_le (img : Img) :
    max (pre_resize img).width (pre_resize img).height ≤ MAX_DIMENSION := by
  unfold pre_resize
  split
  next hgt =>
    have hm : 0 < max img.width img.height := by
      have hMD : MAX_DIMENSION = 1280 := rfl
      omega
    dsimp only
    apply max_le
    · calc img.width * MAX_DIMENSION / (max img.width img.height)
          ≤ (max img.width img.height) * MAX_DIMENSION /
              (max img.width img.height) :=
            Nat.div_le_div_right (Nat.mul_le_mul_right _ (le_max_left _ _))
        _ = MAX_DIMENSION := by
            rw [Nat.mul_comm]
            exact Nat.mul_div_cancel _ hm
    · calc img.height * MAX_DIMENSION / (max img.width img.height)
          ≤ (max img.width img.height) * MAX_DIMENSION /
              (max img.width img.height) :=
            Nat.div_le_div_right (Nat.mul_le_mul_right _ (le_max_right _ _))
        _ = MAX_DIMENSION := by
            rw [Nat.mul_comm]
            exact Nat.mul_div_cancel _ hm
  next hle => exact Nat.le_of_not_lt hle

theorem two_mul_pyRoundDiv_mul_le (h f : Nat) :
    2 * (pyRoundDiv h f * f) ≤ 2 * h + f := by
  have hdm : h / f * f + h % f = h := Nat.div_add_mod' h f
  have hmul : (h / f + 1) * f = h / f * f + f := Nat.succ_mul _ _
  unfold pyRoundDiv
  dsimp only
  split_ifs <;> omega

theorem smart_resize_ok_no_rescale (h w f minP maxP H W : Nat)
    (hok : smart_resize h w f minP maxP = .ok (H, W))
    (hs : ¬ maxP < (pyRoundDiv h f * f) * (pyRoundDiv w f * f))
    (hg : ¬ (pyRoundDiv h f * f) * (pyRoundDiv w f * f) < minP) :
    H = pyRoundDiv h f * f ∧ W = pyRoundDiv w f * f := by
  unfold smart_resize at hok
  split at hok
  next => exact Except.noConfusion hok
  next =>
    split at hok
    next => exact Except.noConfusion hok
    next =>
      dsimp only at hok
      rw [if_neg hs, if_neg hg] at hok
      have hp := Prod.mk.inj (Except.ok.inj hok)
      exact ⟨hp.1.symm, hp.2.symm⟩

theorem smart_resize_dvd (h w f minP maxP H W : Nat)
    (hok : smart_resize h w f minP maxP = .ok (H, W)) : f ∣ H ∧ f ∣ W := by
  unfold smart_resize at hok
  split at hok
  next => exact Except.noConfusion hok
  next =>
    split at hok
    next => exact Except.noConfusion hok
    next =>
      dsimp only at hok
      split at hok
      next =>
        have hp := Prod.mk.inj (Except.ok.inj hok)
        exact ⟨hp.1 ▸ dvd_mul_left f _, hp.2 ▸ dvd_mul_left f _⟩
      next =>
        split at hok
        next =>
          have hp := Prod.mk.inj (Except.ok.inj hok)
          exact ⟨hp.1 ▸ dvd_mul_left f _, hp.2 ▸ dvd_mul_left f _⟩
        next =>
          have hp := Prod.mk.inj (Except.ok.inj hok)
          exact ⟨hp.1 ▸ dvd_mul_left f _, hp.2 ▸ dvd_mul_left f _⟩

/-- C3 counterexample: a 1280x1280 input is not pre-resized (its longer side
does not exceed 1280), and grid alignment with factor 28 (patch 14, merge 2,
the Qwen2-VL processor values) rounds each side up to 46*28 = 1288 > 1280, so
normalize's output exceeds maxDim on both sides. -/
theorem c3_counterexample :
    normalizeDims ⟨1280, 1280⟩ 14 2 3136 12845056 = .ok (1288, 1288) ∧
      MAX_DIMENSION < max 1288 1288 := by
  constructor
  · decide
  · decide

/-- C3 (amended): the pre-resize step alone does bound the longer side by
maxDim = 1280, but the subsequent grid alignment rounds each side to the
nearest multiple of `factor = patchSize * mergeSize` and may therefore exceed
maxDim by up to factor/2: when the pixel-count bounds do not force a beta
rescale, the guaranteed bound on the final sides is
`2 * side ≤ 2 * maxDim + factor`, not `side ≤ maxDim`. -/
theorem c3_amended_grid_bound (img : Img) (p m minP maxP : Nat)
    (hw : 1 ≤ img.width) (hh : 1 ≤ img.height) (H W : Nat)
    (hok : normalizeDims img p m minP maxP = .ok (H, W))
    (hs : ¬ maxP < (pyRoundDiv (pre_resize img).height (p * m) * (p * m)) *
      (pyRoundDiv (pre_resize img).width (p * m) * (p * m)))
    (hg : ¬ (pyRoundDiv (pre_resize img).height (p * m) * (p * m)) *
      (pyRoundDiv (pre_resize img).width (p * m) * (p * m)) < minP) :
    max (pre_resize img).width (pre_resize img).height ≤ MAX_DIMENSION ∧
      2 * H ≤ 2 * MAX_DIMENSION + p * m ∧
      2 * W ≤ 2 * MAX_DIMENSION + p * m := by
  have hpre := pre_resize_max_le img
  unfold normalizeDims at hok
  obtain ⟨hH, hW⟩ := smart_resize_ok_no_rescale _ _ _ _ _ _ _ hok hs hg
  refine ⟨hpre, ?_, ?_⟩
  · have hb := two_mul_pyRoundDiv_mul_le (pre_resize img).height (p * m)
    have hhle : (pre_resize img).height ≤ MAX_DIMENSION :=
      le_trans (le_max_right _ _) hpre
    rw [hH]
    omega
  · have hb := two_mul_pyRoundDiv_mul_le (pre_resize img).width (p * m)
    have hwle : (pre_resize img).width ≤ MAX_DIMENSION :=
      le_trans (le_max_left _ _) hpre
    rw [hW]
    omega

/-- Witness for C3 (amended) at a 1280x800 input with the Qwen2-VL grid. -/
theorem c3_witness :
    (1 ≤ 1280 ∧ 1 ≤ 800 ∧
      normalizeDims ⟨1280, 800⟩ 14 2 3136 12845056 = .ok (812, 1288)) ∧
      max (pre_resize ⟨1280, 800⟩).width (pre_resize ⟨1280, 800⟩).height ≤
          MAX_DIMENSION ∧
        2 * 812 ≤ 2 * MAX_DIMENSION + 14 * 2 ∧
        2 * 1288 ≤ 2 * MAX_DIMENSION + 14 * 2 :=
  ⟨⟨by decide, by decide, by decide⟩,
    c3_amended_grid_bound ⟨1280, 800⟩ 14 2 3136 12845056 (by decide) (by decide)
      812 1288 (by decide) (by decide) (by decide)⟩

/-- C8: whenever normalize succeeds, both output dimensions are exact
multiples of `patchSize * mergeSize`: every branch of `smart_resize` returns
values of the form `k * factor`. -/
theorem c8_grid_multiples (img : Img) (p m minP maxP : Nat) (hp : 0 < p)
    (hm : 0 < m) (hw : 1 ≤ img.width) (hh : 1 ≤ img.height) (H W : Nat)
    (hok : normalizeDims img p m minP maxP = .ok (H, W)) :
    (p * m) ∣ H ∧ (p * m) ∣ W := by
  unfold normalizeDims at hok
  exact smart_resize_dvd _ _ _ _ _ _ _ hok

/-- Witness for C8 at a 1280x800 input with the Qwen2-VL grid. -/
theorem c8_witness :
    (0 < 14 ∧ 0 < 2 ∧ 1 ≤ 1280 ∧ 1 ≤ 800 ∧
      normalizeDims ⟨1280, 800⟩ 14 2 3136 12845056 = .ok (812, 1288)) ∧
      (14 * 2) ∣ 812 ∧ (14 * 2) ∣ 1288 :=
  ⟨⟨by decide, by decide, by decide, by decide, by decide⟩,
    c8_grid_multiples ⟨1280, 800⟩ 14 2 3136 12845056 (by decide) (by decide)
      (by decide) (by decide) 812 1288 (by decide)⟩

theorem pre_resize_width_zero (img : Img) (h0 : img.width = 0) :
    (pre_resize img).width = 0 := by
  unfold pre_resize
  split <;> simp [h0]

theorem pre_resize_height_zero (img : Img) (h0 : img.height = 0) :
    (pre_resize img).height = 0 := by
  unfold pre_resize
  split <;> simp [h0]

/-- C4 counterexample: a zero-width image fails through the same catch-all
`Processing failed` dict (model.py lines 185-187) that a failing generation
capability produces — the two failure kinds are not distinguishable by the
caller, refuting the claim's distinguishable `InvalidImage` error. -/
theorem c4_counterexample :
    (process_image_task genConst decodeJson500 14 2 3136 12845056 ⟨0, 100⟩
        "click").isProcessingFailure = true ∧
      (process_image_task genBoom decodeJson500 14 2 3136 12845056 ⟨800, 600⟩
        "click").isProcessingFailure = true := by
  constructor
  · decide
  · decide

/-- C4 (amended): for every image with zero width or zero height the pipeline
does fail rather than produce output — `smart_resize` raises and the outer
`except` reports the catch-all `Processing failed` bundle — but that is the
same failure shape that a generation failure produces, not a distinct
`InvalidImage` error kind. -/
theorem c4_amended_zero_dim_catch_all
    (gen : Img → String → Except String (List Nat)) (decode : List Nat → String)
    (p m minP maxP : Nat) (img : Img) (task : String) (hp : 0 < p) (hm : 0 < m)
    (hzero : img.width = 0 ∨ img.height = 0) :
    ∃ msg, process_image_task gen decode p m minP maxP img task =
      .processingFailure msg := by
  have hf : 0 < p * m := Nat.mul_pos hp hm
  have herr : smart_resize (pre_resize img).height (pre_resize img).width
      (p * m) minP maxP = .error "height or width must be larger than factor" := by
    unfold smart_resize
    rcases hzero with h0 | h0
    · rw [if_pos (Or.inr (by rw [pre_resize_width_zero img h0]; exact hf))]
    · rw [if_pos (Or.inl (by rw [pre_resize_height_zero img h0]; exact hf))]
  refine ⟨"Processing failed: height or width must be larger than factor", ?_⟩
  unfold process_image_task
  dsimp only
  rw [herr]
  rfl

/-- Witness for C4 (amended) at a zero-width 0x100 image. -/
theorem c4_witness :
    (0 < 14 ∧ 0 < 2 ∧
        ((⟨0, 100⟩ : Img).width = 0 ∨ (⟨0, 100⟩ : Img).height = 0)) ∧
      ∃ msg, process_image_task genConst decodeJson500 14 2 3136 12845056
        ⟨0, 100⟩ "click" = .processingFailure msg :=
  ⟨⟨by decide, by decide, by decide⟩,
    c4_amended_zero_dim_catch_all genConst decodeJson500 14 2 3136 12845056
      ⟨0, 100⟩ "click" (by decide) (by decide) (by decide)⟩

/-- C9 counterexample: a request whose image payload and task are both empty
is rejected by the earlier image check with `No image provided`, not with the
task (EmptyTask) error, so "every request whose task string is empty fails
with an EmptyTask error" does not hold as stated. -/
theorem c9_counterexample :
    process_image decodeImage800 genConst decodeJson500 14 2 3136 12845056
        (some ⟨"", "", "click"⟩) = .badRequest "No image provided" ∧
      process_image decodeImage800 genConst decodeJson500 14 2 3136 12845056
          (some ⟨"", "", "click"⟩) ≠ .badRequest "No task provided" := by
  constructor
  · decide
  · decide

/-- C9 (amended): for every request whose task string is empty, the result is
the same for every generation capability and tokenizer — generation is never
invoked — and when the request's image payload is nonempty (so the earlier
image check passes) the request fails with the EmptyTask rejection
(`No task provided`, 400) before generation. -/
theorem c9_empty_task_never_generates
    (decodeImage : String → Except String Img)
    (g1 g2 : Img → String → Except String (List Nat))
    (dec1 dec2 : List Nat → String) (p m minP maxP : Nat) (d : RequestData)
    (htask : d.task = "") :
    process_image decodeImage g1 dec1 p m minP maxP (some d) =
        process_image decodeImage g2 dec2 p m minP maxP (some d) ∧
      (d.image ≠ "" →
        process_image decodeImage g1 dec1 p m minP maxP (some d) =
          .badRequest "No task provided") := by
  unfold process_image
  dsimp only
  by_cases himg : d.image = ""
  · rw [if_pos himg, if_pos himg]
    exact ⟨rfl, fun hne => absurd himg hne⟩
  · rw [if_neg himg, if_neg himg, if_pos htask, if_pos htask]
    exact ⟨rfl, fun _ => rfl⟩

/-- Witness for C9 (amended) at a request with an image payload and an empty
task, over two different generation capabilities. -/
theorem c9_witness :
    (RequestData.mk "IMG" "" "click").task = "" ∧
      (process_image decodeImage800 genConst decodeJson500 14 2 3136 12845056
          (some ⟨"IMG", "", "click"⟩) =
        process_image decodeImage800 genBoom decodeNum 14 2 3136 12845056
          (some ⟨"IMG", "", "click"⟩)) ∧
      ((RequestData.mk "IMG" "" "click").image ≠ "" →
        process_image decodeImage800 genConst decodeJson500 14 2 3136 12845056
          (some ⟨"IMG", "", "click"⟩) = .badRequest "No task provided") :=
  ⟨by decide,
    (c9_empty_task_never_generates decodeImage800 genConst genBoom decodeJson500
      decodeNum 14 2 3136 12845056 ⟨"IMG", "", "click"⟩ (by decide)).1,
    (c9_empty_task_never_generates decodeImage800 genConst genBoom decodeJson500
      decodeNum 14 2 3136 12845056 ⟨"IMG", "", "click"⟩ (by decide)).2⟩

/-- C10: the route's task check (`if not task`) rejects exactly the empty
string, so a whitespace-only task such as `" "` passes it and the pipeline
proceeds into `process_image_task` with that task — and generation really is
invoked there: two different generation capabilities produce different
responses for the whitespace task. -/
theorem c10_whitespace_task_generates
    (decodeImage : String → Except String Img)
    (g : Img → String → Except String (List Nat)) (dc : List Nat → String)
    (p m minP maxP : Nat) (d : RequestData) (img : Img)
    (hws : d.task ≠ "" ∧ ∀ c ∈ d.task.data, c = ' ') (himg : d.image ≠ "")
    (hdec : decodeImage d.image = .ok img) :
    process_image decodeImage g dc p m minP maxP (some d) =
        handle_task_result (process_image_task g dc p m minP maxP img d.task) ∧
      process_image decodeImage800 genConst decodeJson500 14 2 3136 12845056
          (some ⟨"IMG", " ", "click"⟩) ≠
        process_image decodeImage800 genBoom decodeJson500 14 2 3136 12845056
          (some ⟨"IMG", " ", "click"⟩) := by
  constructor
  · unfold process_image
    dsimp only
    rw [if_neg himg, if_neg hws.1, hdec]
  · decide

/-- Witness for C10 at the whitespace task `" "`. -/
theorem c10_witness :
    (process_image decodeImage800 genConst decodeJson500 14 2 3136 12845056
        (some ⟨"IMG", " ", "click"⟩) =
      handle_task_result (process_image_task genConst decodeJson500 14 2 3136
        12845056 ⟨800, 600⟩ " ")) ∧
      process_image decodeImage800 genConst decodeJson500 14 2 3136 12845056
          (some ⟨"IMG", " ", "click"⟩) ≠
        process_image decodeImage800 genBoom decodeJson500 14 2 3136 12845056
          (some ⟨"IMG", " ", "click"⟩) :=
  c10_whitespace_task_generates decodeImage800 genConst decodeJson500 14 2 3136
    12845056 ⟨"IMG", " ", "click"⟩ ⟨800, 600⟩ ⟨by decide, by decide⟩ (by decide)
    (by decide)

end Holo2
